import Mathlib

/-!
Verification of the authentication core of the dukakidigitali-frontend
repository: the axios instance with its request/response interceptors
(src/src/app/(dashboard)/dashboard/pos/new-sale/page.tsx, appended module),
the session resolver hook (src/src/hooks/useAuth.ts), the login submit
handler (src/src/app/(auth)/login/page.tsx) and the edge middleware route
guard (src/unnamed/part_000). Each definition is a shallow embedding of the
corresponding TypeScript function; theorems settle the frozen claims.
-/

namespace Duka

/-- JavaScript string truthiness of an optional string: `undefined` and the
empty string are falsy, every other string is truthy. Models `!!s` and
`if (s)` on a `string | undefined` value. -/
def truthy : Option String → Bool
  | none => false
  | some s => s ≠ ""

/-- A stored cookie: its current value and the max-age attribute (seconds)
it was last written with. -/
structure Cookie where
  value : String
  maxAge : Nat
  deriving Repr, DecidableEq

/-- The credential store: the two cookies the code reads and writes.
`none` means the cookie is absent from the store. -/
structure CookieStore where
  access : Option Cookie
  refresh : Option Cookie
  deriving Repr, DecidableEq

/-- `getCookie(name)` as the code uses it: the stored value when the cookie
exists, `undefined` (here `none`) otherwise. -/
def getCookieValue : Option Cookie → Option String
  | none => none
  | some c => some c.value

/-! ## Route guard (edge middleware, src/unnamed/part_000) -/

/-- Boolean substring occurrence on character lists. -/
def containsSub (sub : List Char) : List Char → Bool
  | [] => sub.isEmpty
  | c :: rest => sub.isPrefixOf (c :: rest) || containsSub sub rest

/-- Substring test modelling JavaScript `String.prototype.includes`. -/
def jsIncludes (s sub : String) : Bool :=
  containsSub sub.toList s.toList

/-- The fixed protected-route patterns of the middleware. -/
def protectedRoutes : List String := ["/dashboard", "/dashboard/:path*"]

/-- The fixed auth-only routes of the middleware. -/
def authRoutes : List String := ["/login", "/register"]

/-- `matchesProtectedRoute` from the middleware: a pattern containing the
wildcard segment matches by prefix after the wildcard is stripped, any
other pattern matches exactly. -/
def matchesProtectedRoute (currentPath : String) : Bool :=
  protectedRoutes.any fun pattern =>
    if jsIncludes pattern ":path*" then
      let basePath := pattern.replace ":path*" ""
      basePath.isPrefixOf currentPath
    else pattern == currentPath

/-- Hexadecimal digit characters used by percent encoding (upper case, as
produced by `URLSearchParams`). -/
def hexDigit (n : Nat) : Char :=
  if n < 10 then Char.ofNat (48 + n) else Char.ofNat (55 + n)

/-- Characters `encodeURIComponent` and `URLSearchParams` leave unescaped. -/
def urlUnreserved (c : Char) : Bool :=
  c.isAlphanum || c = '-' || c = '_' || c = '.' || c = '!' ||
  c = '~' || c = '*' || c = '\x27' || c = '(' || c = ')'

/-- Percent encoding of one ASCII character. -/
def percentEncodeChar (c : Char) : String :=
  if urlUnreserved c then String.singleton c
  else
    String.mk ['%', hexDigit (c.toNat / 16), hexDigit (c.toNat % 16)]

/-- Percent encoding of a query-parameter value, as performed by
`url.searchParams.set`. -/
def percentEncode (s : String) : String :=
  String.join (s.toList.map percentEncodeChar)

/-- The decision an edge middleware can return: pass the request through
(`NextResponse.next()`) or redirect to a target path-with-query on the
request origin (`NextResponse.redirect`). -/
inductive GuardResult where
  | next
  | redirect (target : String)
  deriving Repr, DecidableEq

/-- The body of `middleware` (the code inside its `try`): classify the
request path, read the `accessToken` cookie, and decide. Redirect targets
are modelled as path-plus-query on the request origin. -/
def middlewareBody (pathname : String) (accessTokenCookie : Option String) :
    GuardResult :=
  let isAuthenticated := truthy accessTokenCookie
  let isProtectedRoute := matchesProtectedRoute pathname
  let isAuthRoute := authRoutes.contains pathname
  if isAuthenticated then
    if isAuthRoute then GuardResult.redirect "/dashboard"
    else GuardResult.next
  else
    if isAuthRoute then GuardResult.next
    else if isProtectedRoute then
      GuardResult.redirect ("/login?callbackUrl=" ++ percentEncode pathname)
    else GuardResult.next

/-- The `catch` clause of `middleware`: any exception thrown while
classifying produces a redirect to `/login` (fail-closed). The argument is
the outcome of the body, exception or result. -/
def middlewareCatch (body : Except String GuardResult) : GuardResult :=
  match body with
  | Except.ok r => r
  | Except.error _ => GuardResult.redirect "/login"

/-- `middleware` on a request whose classification does not throw. -/
def middleware (pathname : String) (accessTokenCookie : Option String) :
    GuardResult :=
  middlewareCatch (Except.ok (middlewareBody pathname accessTokenCookie))

/-! ## HTTP client core (axiosInstance and its interceptors) -/

/-- An axios request config as the interceptors see it: the request target,
the Authorization header if any, and the transient `_retry` marker
(`retryFlag` here) the response interceptor sets before refreshing. -/
structure RequestConfig where
  url : String
  authHeader : Option String
  retryFlag : Bool
  deriving Repr, DecidableEq

/-- An axios error as the response interceptor sees it: the response status
when a response arrived (`error.response?.status`), the config of the
request that failed (`error.config`), and an opaque tag identifying the
underlying failure. -/
structure HttpErr where
  status : Option Nat
  config : RequestConfig
  tag : String
  deriving Repr, DecidableEq

/-- Outcome of putting one request on the wire: a successful response body,
or a failure carrying an optional HTTP status. -/
inductive BackendResult where
  | ok (body : String)
  | fail (status : Option Nat) (tag : String)
  deriving Repr, DecidableEq

/-- The environment a dispatch runs in: how the backend answers each
dispatched config, how the bare-axios refresh endpoint answers given the
refresh-token cookie value sent to it, and the browser context the refresh
failure branch inspects. -/
structure Env where
  backend : RequestConfig → BackendResult
  refreshEndpoint : Option String → BackendResult
  isBrowser : Bool
  pathname : String

/-- Observable side effects of a dispatch, in order of occurrence. -/
inductive Event where
  | refreshCall (refreshToken : Option String)
  | setCookieEv (name value : String) (maxAge : Nat)
  | retryDispatch (cfg : RequestConfig)
  | navigate (target : String)
  deriving Repr, DecidableEq

/-- The request interceptor: read the `accessToken` cookie and, when it is
truthy, attach it as a bearer Authorization header; otherwise leave the
config unchanged. -/
def requestInterceptor (st : CookieStore) (cfg : RequestConfig) :
    RequestConfig :=
  { cfg with authHeader :=
      match getCookieValue st.access with
      | some token => if token ≠ "" then some ("Bearer " ++ token)
                      else cfg.authHeader
      | none => cfg.authHeader }

/-- The config of the bare-axios refresh request
(`axios.post(BASE_URL + /auth/refresh-token)`): it is a fresh request that
never went through the instance interceptors. -/
def refreshRequestConfig : RequestConfig :=
  { url := "/auth/refresh-token", authHeader := none, retryFlag := false }

/-- Lift a raw backend outcome to what the axios promise settles with: the
body on success, an `HttpErr` carrying the dispatched config on failure. -/
def settle (cfg : RequestConfig) : BackendResult → Except HttpErr String
  | BackendResult.ok body => Except.ok body
  | BackendResult.fail s t => Except.error { status := s, config := cfg, tag := t }

/-- One full dispatch through `axiosInstance`: the request interceptor
attaches the cookie token, the request goes out, and the response
interceptor handles the outcome. On a 401 whose config does not yet carry
the retry marker it marks the config, posts the stored refresh token to the
refresh endpoint through bare axios, and either stores the new token
(max-age 24h), re-attaches it and re-dispatches the original request once
through the instance, or clears both cookies, navigates to `/login` when in
a browser off the login page, and rejects with the refresh failure. Every
other failure is propagated unchanged. Returns the final cookie store, the
ordered side effects, and the value the original caller receives.
Recursion is on the retry marker: the re-dispatched config carries it, so
its own 401 handling propagates without refreshing again. -/
def dispatch (env : Env) (st : CookieStore) (cfg : RequestConfig) :
    CookieStore × List Event × Except HttpErr String :=
  let cfg1 := requestInterceptor st cfg
  match env.backend cfg1 with
  | BackendResult.ok body => (st, [], Except.ok body)
  | BackendResult.fail status tag =>
    if h : status = some 401 ∧ cfg.retryFlag = false then
      let cfg2 := { cfg1 with retryFlag := true }
      let rtok := getCookieValue st.refresh
      match env.refreshEndpoint rtok with
      | BackendResult.ok newToken =>
        let st1 : CookieStore :=
          { st with access := some { value := newToken, maxAge := 24 * 60 * 60 } }
        let cfg3 := { cfg2 with authHeader := some ("Bearer " ++ newToken) }
        let rec_ := dispatch env st1 cfg3
        (rec_.1,
         Event.refreshCall rtok ::
           Event.setCookieEv "accessToken" newToken (24 * 60 * 60) ::
           Event.retryDispatch cfg3 :: rec_.2.1,
         rec_.2.2)
      | BackendResult.fail s2 t2 =>
        let st1 : CookieStore :=
          { access := some { value := "", maxAge := 0 },
            refresh := some { value := "", maxAge := 0 } }
        let navEvents :=
          if env.isBrowser ∧ jsIncludes env.pathname "/login" = false then
            [Event.navigate "/login"]
          else []
        (st1,
         Event.refreshCall rtok ::
           Event.setCookieEv "accessToken" "" 0 ::
           Event.setCookieEv "refreshToken" "" 0 :: navEvents,
         Except.error { status := s2, config := refreshRequestConfig, tag := t2 })
    else
      (st, [], Except.error { status := status, config := cfg1, tag := tag })
termination_by (if cfg.retryFlag then 0 else 1)
decreasing_by
  simp_all

/-- Number of refresh calls recorded in an event trace. -/
def countRefresh (events : List Event) : Nat :=
  events.countP fun e =>
    match e with
    | Event.refreshCall _ => true
    | _ => false

/-- Number of re-dispatches of an original request recorded in a trace. -/
def countRetry (events : List Event) : Nat :=
  events.countP fun e =>
    match e with
    | Event.retryDispatch _ => true
    | _ => false

/-! ## Session resolver (src/src/hooks/useAuth.ts) -/

/-- One granted authority, as the backend serialises it. -/
structure Authority where
  authority : String
  deriving Repr, DecidableEq

/-- The authenticated user record of the session payload. -/
structure AuthUser where
  id : Int
  name : String
  email : String
  imageUrl : Option String
  role : String
  phoneNumber : Option String
  enabled : Bool
  authorities : List Authority
  deriving Repr, DecidableEq

/-- The `data` payload of a session response; `user` is optional to model
payloads that carry no user. -/
structure SessionData where
  user : Option AuthUser
  token : String
  expiresIn : Nat
  deriving Repr, DecidableEq

/-- A successful session response body. -/
structure SessionResponse where
  status : String
  message : String
  data : SessionData
  deriving Repr, DecidableEq

/-- The state the `useAuth` hook owns, together with the cookie store it
reads and writes and the navigation it may force. -/
structure AuthState where
  user : Option AuthUser
  loading : Bool
  error : Option String
  cookies : CookieStore
  nav : Option String
  deriving Repr, DecidableEq

/-- How the `axiosInstance.get(/auth/session)` call settles, as the
`try`/`catch` of `fetchSession` distinguishes the cases: a response body,
an axios error with the optional backend-provided message
(`err.response?.data?.message`), or any other thrown value. -/
inductive FetchOutcome where
  | ok (resp : SessionResponse)
  | axiosErr (backendMessage : Option String)
  | otherErr
  deriving Repr, DecidableEq

/-- `fetchSession` from `useAuth`: on a success whose status is `SUCCESS`
and whose payload carries a user, store the user and rewrite the
`accessToken` cookie from the payload (max-age `expiresIn / 1000`); on any
success clear the error. On an axios error set the backend message (or a
default) as the error and clear the user; on any other thrown value set a
generic error only. In every case leave the loading state. -/
def fetchSession (outcome : FetchOutcome) (s : AuthState) : AuthState :=
  let s1 :=
    match outcome with
    | FetchOutcome.ok resp =>
      let sessionCookie : Cookie :=
        { value := resp.data.token, maxAge := resp.data.expiresIn / 1000 }
      let s2 :=
        if resp.status = "SUCCESS" ∧ resp.data.user ≠ none then
          { s with user := resp.data.user,
                   cookies := { s.cookies with access := some sessionCookie } }
        else s
      { s2 with error := none }
    | FetchOutcome.axiosErr msg =>
      { s with error := some (msg.getD "Failed to fetch session"),
               user := none }
    | FetchOutcome.otherErr =>
      { s with error := some "An unexpected error occurred" }
  { s1 with loading := false }

/-- `logout` from `useAuth`: the server call is best-effort — a failure is
only logged (the returned flag records that a failure was logged, nothing
is thrown to the caller) — and the `finally` block unconditionally clears
both cookies (empty value, max-age 0), clears the user and navigates to
`/login`. -/
def logout (serverCallOk : Bool) (s : AuthState) : AuthState × Bool :=
  let failureLogged := serverCallOk = false
  ({ s with cookies := { access := some { value := "", maxAge := 0 },
                         refresh := some { value := "", maxAge := 0 } },
            user := none,
            nav := some "/login" },
   failureLogged)

/-- `isAuthenticated` from `useAuth`:
`!!user && !!getCookie(accessToken)`. -/
def isAuthenticated (user : Option AuthUser) (st : CookieStore) : Bool :=
  user.isSome && truthy (getCookieValue st.access)

/-! ## Login submit handler (src/src/app/(auth)/login/page.tsx) -/

/-- The `data` payload of a successful authenticate response. -/
structure LoginData where
  accessToken : Option String
  refreshToken : Option String
  deriving Repr, DecidableEq

/-- The cookie writes of the login `onSubmit` handler on a successful
authenticate response: when the payload carries a truthy access token it is
stored with max-age 30 days under remember-me and 24 hours otherwise, and a
truthy refresh token in the payload is stored with the same max-age. -/
def loginStoreCookies (rememberMe : Bool) (payload : LoginData)
    (st : CookieStore) : CookieStore :=
  match payload.accessToken with
  | some tokenA =>
    if tokenA ≠ "" then
      let maxAge := if rememberMe then 30 * 24 * 60 * 60 else 24 * 60 * 60
      let st1 := { st with access := some { value := tokenA, maxAge := maxAge } }
      match payload.refreshToken with
      | some tokenR =>
        if tokenR ≠ "" then
          { st1 with refresh := some { value := tokenR, maxAge := maxAge } }
        else st1
      | none => st1
    else st
  | none => st

/-! ## Sample inputs used by witnesses and counterexamples -/

/-- A concrete authenticated user. -/
def sampleUser : AuthUser :=
  { id := 7, name := "Jane Doe", email := "jane@example.com", imageUrl := none,
    role := "CASHIER", phoneNumber := none, enabled := true,
    authorities := [{ authority := "USER" }] }

/-- A cookie store holding both tokens. -/
def baseCookies : CookieStore :=
  { access := some { value := "oldAccess", maxAge := 86400 },
    refresh := some { value := "refTok", maxAge := 86400 } }

/-- A resolver state with an in-memory user present. -/
def stateWithUser : AuthState :=
  { user := some sampleUser, loading := false, error := none,
    cookies := baseCookies, nav := none }

/-- A session response whose shape is not the success sentinel with a user. -/
def failShapeResp : SessionResponse :=
  { status := "FAILURE", message := "no session",
    data := { user := none, token := "", expiresIn := 0 } }

/-- A concrete outbound request config before interception. -/
def saleRequest : RequestConfig :=
  { url := "/sales", authHeader := none, retryFlag := false }

/-- An environment whose backend answers 401 to unretried requests and
succeeds on retried ones, and whose refresh endpoint succeeds. -/
def envRefreshOk : Env :=
  { backend := fun c =>
      if c.retryFlag then BackendResult.ok "retried-body"
      else BackendResult.fail (some 401) "expired",
    refreshEndpoint := fun _ => BackendResult.ok "mintedTok",
    isBrowser := true, pathname := "/dashboard/pos" }

/-- An environment whose backend always answers 401 and whose refresh
endpoint itself fails with 401. -/
def envRefreshFail : Env :=
  { backend := fun _ => BackendResult.fail (some 401) "expired",
    refreshEndpoint := fun _ => BackendResult.fail (some 401) "stale-refresh",
    isBrowser := true, pathname := "/dashboard/pos" }

/-! ## Helper lemmas -/

/-- A dispatch whose config already carries the retry marker settles the
raw backend outcome directly: no refresh, no events, no cookie change. -/
theorem dispatch_retry_marked (env : Env) (st : CookieStore)
    (cfg : RequestConfig) (h : cfg.retryFlag = true) :
    dispatch env st cfg =
      (st, [], settle (requestInterceptor st cfg)
        (env.backend (requestInterceptor st cfg))) := by
  rw [dispatch]
  cases henv : env.backend (requestInterceptor st cfg) <;>
    simp [settle, h, henv]

/-- No path of the form `/dashboard/x` is an auth route. -/
theorem authRoutes_not_dashboard (rest : String) :
    ("/dashboard/" ++ rest) ∉ authRoutes := by
  have hd : ("/dashboard/" : String).length = 11 := rfl
  have h1 : "/dashboard/" ++ rest ≠ "/login" := by
    intro h
    have hlen := congrArg String.length h
    rw [String.length_append, hd] at hlen
    have hl : ("/login" : String).length = 6 := rfl
    rw [hl] at hlen
    omega
  have h2 : "/dashboard/" ++ rest ≠ "/register" := by
    intro h
    have hlen := congrArg String.length h
    rw [String.length_append, hd] at hlen
    have hl : ("/register" : String).length = 9 := rfl
    rw [hl] at hlen
    omega
  simp [authRoutes, h1, h2]

/-- A concrete successful authenticate payload with both tokens. -/
def loginPayload : LoginData :=
  { accessToken := some "tokA", refreshToken := some "tokR" }

/-- A request config already carrying the retry marker. -/
def markedRequest : RequestConfig :=
  { url := "/sales", authHeader := none, retryFlag := true }

/-! ## Claims -/

/-- Claim C4: the route guard redirects `/dashboard` without an access-token
cookie to `/login?callbackUrl=%2Fdashboard`, redirects `/login` with a
token to `/dashboard`, passes `/login` through without a token, passes any
path under `/dashboard/` through when a token is present, and any exception
thrown during classification yields a redirect to `/login`. -/
theorem claim_C4 :
    middleware "/dashboard" none =
      GuardResult.redirect "/login?callbackUrl=%2Fdashboard" ∧
    (∀ t : String, t ≠ "" →
      middleware "/login" (some t) = GuardResult.redirect "/dashboard") ∧
    middleware "/login" none = GuardResult.next ∧
    (∀ (t rest : String), t ≠ "" →
      middleware ("/dashboard/" ++ rest) (some t) = GuardResult.next) ∧
    (∀ e : String,
      middlewareCatch (Except.error e) = GuardResult.redirect "/login") := by
  refine ⟨rfl, ?_, rfl, ?_, fun e => rfl⟩
  · intro t ht
    simp [middleware, middlewareCatch, middlewareBody, truthy, ht, authRoutes]
  · intro t rest ht
    simp [middleware, middlewareCatch, middlewareBody, truthy, ht]
    exact authRoutes_not_dashboard rest

/-- Claim C4 witness: the guarded scenarios at concrete tokens. -/
theorem claim_C4_witness :
    middleware "/login" (some "tok") = GuardResult.redirect "/dashboard" ∧
    middleware ("/dashboard/" ++ "pos") (some "tok") = GuardResult.next :=
  ⟨claim_C4.2.1 "tok" (by decide), claim_C4.2.2.2.1 "tok" "pos" (by decide)⟩

/-- Claim C5: `isAuthenticated` is true iff an in-memory user is present and
the access-token cookie exists with a non-empty value; making either one
absent makes it false. -/
theorem claim_C5 (user : Option AuthUser) (st : CookieStore) :
    (isAuthenticated user st = true ↔
      (∃ u, user = some u) ∧
        ∃ v, getCookieValue st.access = some v ∧ v ≠ "") ∧
    isAuthenticated none st = false ∧
    isAuthenticated user { st with access := none } = false := by
  refine ⟨?_, ?_, ?_⟩
  · cases user <;> cases hac : st.access <;>
      simp [isAuthenticated, truthy, getCookieValue, hac]
  · simp [isAuthenticated]
  · cases user <;> simp [isAuthenticated, truthy, getCookieValue]

/-- Claim C9: `logout` clears both cookies to the empty value with
max-age 0, clears the in-memory user, forces navigation to `/login`, and
the server-call failure is only logged, never surfaced: the call returns
normally for both outcomes of the best-effort request. -/
theorem claim_C9 (serverCallOk : Bool) (s : AuthState) :
    (logout serverCallOk s).1.cookies.access =
      some { value := "", maxAge := 0 } ∧
    (logout serverCallOk s).1.cookies.refresh =
      some { value := "", maxAge := 0 } ∧
    (logout serverCallOk s).1.user = none ∧
    (logout serverCallOk s).1.nav = some "/login" ∧
    ((logout serverCallOk s).2 = true ↔ serverCallOk = false) := by
  simp [logout]

/-- Claim C7: login with remember-me off stores the access token with
max-age 86400, with remember-me on with max-age 2592000, and a token minted
by the refresh path is always stored with max-age 86400 regardless of the
remember-me choice. -/
theorem claim_C7 :
    (∀ (payload : LoginData) (st : CookieStore) (tok : String),
      payload.accessToken = some tok → tok ≠ "" →
      (loginStoreCookies false payload st).access =
        some { value := tok, maxAge := 86400 }) ∧
    (∀ (payload : LoginData) (st : CookieStore) (tok : String),
      payload.accessToken = some tok → tok ≠ "" →
      (loginStoreCookies true payload st).access =
        some { value := tok, maxAge := 2592000 }) ∧
    (∀ (env : Env) (st : CookieStore) (cfg : RequestConfig)
        (tag newTok : String),
      env.backend (requestInterceptor st cfg) =
        BackendResult.fail (some 401) tag →
      cfg.retryFlag = false →
      env.refreshEndpoint (getCookieValue st.refresh) =
        BackendResult.ok newTok →
      (dispatch env st cfg).1.access =
        some { value := newTok, maxAge := 86400 }) := by
  refine ⟨?_, ?_, ?_⟩
  · intro payload st tok h ht
    cases hrt : payload.refreshToken <;>
      simp [loginStoreCookies, h, hrt, ht] <;> split <;> rfl
  · intro payload st tok h ht
    cases hrt : payload.refreshToken <;>
      simp [loginStoreCookies, h, hrt, ht] <;> split <;> rfl
  · intro env st cfg tag newTok hb hr hok
    rw [dispatch]
    simp only [hb, hr]
    simp only [hok]
    rw [dispatch_retry_marked]
    · simp
    · rfl

/-- Claim C7 witness: the three lifetimes at concrete inputs. -/
theorem claim_C7_witness :
    (loginStoreCookies false loginPayload baseCookies).access =
      some { value := "tokA", maxAge := 86400 } ∧
    (loginStoreCookies true loginPayload baseCookies).access =
      some { value := "tokA", maxAge := 2592000 } ∧
    (dispatch envRefreshOk baseCookies saleRequest).1.access =
      some { value := "mintedTok", maxAge := 86400 } :=
  ⟨claim_C7.1 loginPayload baseCookies "tokA" rfl (by decide),
   claim_C7.2.1 loginPayload baseCookies "tokA" rfl (by decide),
   claim_C7.2.2 envRefreshOk baseCookies saleRequest "expired" "mintedTok"
     rfl rfl rfl⟩

/-- Claim C1: on a 401 response to a request not yet marked retried, the
interceptor makes exactly one refresh call and at most one retry of the
original request; on a 401 response to a request already marked retried it
makes no refresh call and propagates the failure unchanged. -/
theorem claim_C1 (env : Env) (st : CookieStore) (cfg : RequestConfig)
    (tag : String)
    (hb : env.backend (requestInterceptor st cfg) =
      BackendResult.fail (some 401) tag) :
    (cfg.retryFlag = false →
      countRefresh (dispatch env st cfg).2.1 = 1 ∧
      countRetry (dispatch env st cfg).2.1 ≤ 1) ∧
    (cfg.retryFlag = true →
      countRefresh (dispatch env st cfg).2.1 = 0 ∧
      (dispatch env st cfg).2.2 =
        Except.error
          { status := some 401, config := requestInterceptor st cfg,
            tag := tag }) := by
  constructor
  · intro hr
    rw [dispatch]
    simp only [hb]
    rw [dif_pos (⟨trivial, hr⟩ : True ∧ cfg.retryFlag = false)]
    cases href : env.refreshEndpoint (getCookieValue st.refresh) with
    | ok newTok =>
      simp only [href]
      rw [dispatch_retry_marked]
      · simp [countRefresh, countRetry]
      · rfl
    | fail s2 t2 =>
      simp only [href]
      split <;> simp [countRefresh, countRetry]
  · intro hr
    rw [dispatch_retry_marked env st cfg hr]
    simp [countRefresh, settle, hb]

/-- Claim C1 witness: the two guarded cases at concrete inputs. -/
theorem claim_C1_witness :
    (countRefresh (dispatch envRefreshOk baseCookies saleRequest).2.1 = 1 ∧
      countRetry (dispatch envRefreshOk baseCookies saleRequest).2.1 ≤ 1) ∧
    (countRefresh (dispatch envRefreshFail baseCookies markedRequest).2.1 = 0 ∧
      (dispatch envRefreshFail baseCookies markedRequest).2.2 =
        Except.error
          { status := some 401,
            config := requestInterceptor baseCookies markedRequest,
            tag := "expired" }) :=
  ⟨(claim_C1 envRefreshOk baseCookies saleRequest "expired" rfl).1 rfl,
   (claim_C1 envRefreshFail baseCookies markedRequest "expired" rfl).2 rfl⟩

/-- Claim C2: when the refresh call succeeds after a 401, the stored
access-token cookie afterwards equals the newly issued token (max-age 24h)
while the refresh-token cookie is untouched, the original request is
re-dispatched exactly once carrying the new token as bearer credential, and
the retried dispatch result is returned to the caller as-is. -/
theorem claim_C2 (env : Env) (st : CookieStore) (cfg : RequestConfig)
    (tag newTok : String)
    (hb : env.backend (requestInterceptor st cfg) =
      BackendResult.fail (some 401) tag)
    (hr : cfg.retryFlag = false)
    (hok : env.refreshEndpoint (getCookieValue st.refresh) =
      BackendResult.ok newTok) :
    (dispatch env st cfg).1 =
      { st with access := some { value := newTok, maxAge := 86400 } } ∧
    (dispatch env st cfg).2.1 =
      [Event.refreshCall (getCookieValue st.refresh),
       Event.setCookieEv "accessToken" newTok 86400,
       Event.retryDispatch
         { url := cfg.url, authHeader := some ("Bearer " ++ newTok),
           retryFlag := true }] ∧
    countRetry (dispatch env st cfg).2.1 = 1 ∧
    (dispatch env st cfg).2.2 =
      (dispatch env
        { st with access := some { value := newTok, maxAge := 86400 } }
        { url := cfg.url, authHeader := some ("Bearer " ++ newTok),
          retryFlag := true }).2.2 := by
  rw [dispatch]
  simp only [hb]
  rw [dif_pos (⟨trivial, hr⟩ : True ∧ cfg.retryFlag = false)]
  simp only [hok]
  rw [dispatch_retry_marked]
  · rw [dispatch_retry_marked]
    · simp [countRetry, requestInterceptor, getCookieValue]
    · rfl
  · rfl

/-- Claim C2 witness: the refresh-success cycle at concrete inputs. -/
theorem claim_C2_witness :
    (dispatch envRefreshOk baseCookies saleRequest).1 =
      { baseCookies with
          access := some { value := "mintedTok", maxAge := 86400 } } ∧
    (dispatch envRefreshOk baseCookies saleRequest).2.1 =
      [Event.refreshCall (getCookieValue baseCookies.refresh),
       Event.setCookieEv "accessToken" "mintedTok" 86400,
       Event.retryDispatch
         { url := saleRequest.url,
           authHeader := some ("Bearer " ++ "mintedTok"),
           retryFlag := true }] ∧
    countRetry (dispatch envRefreshOk baseCookies saleRequest).2.1 = 1 ∧
    (dispatch envRefreshOk baseCookies saleRequest).2.2 =
      (dispatch envRefreshOk
        { baseCookies with
            access := some { value := "mintedTok", maxAge := 86400 } }
        { url := saleRequest.url,
          authHeader := some ("Bearer " ++ "mintedTok"),
          retryFlag := true }).2.2 :=
  claim_C2 envRefreshOk baseCookies saleRequest "expired" "mintedTok"
    rfl rfl rfl

/-- Claim C3: when the refresh call fails after a 401, both cookies are
cleared to the empty value with max-age 0, a navigation to `/login` is
issued exactly when running in a browser whose current path does not
contain the login segment, and the refresh failure — carrying the refresh
request config, not the original one — is what the caller receives. -/
theorem claim_C3 (env : Env) (st : CookieStore) (cfg : RequestConfig)
    (tag : String) (s2 : Option Nat) (t2 : String)
    (hb : env.backend (requestInterceptor st cfg) =
      BackendResult.fail (some 401) tag)
    (hr : cfg.retryFlag = false)
    (hfail : env.refreshEndpoint (getCookieValue st.refresh) =
      BackendResult.fail s2 t2) :
    (dispatch env st cfg).1 =
      { access := some { value := "", maxAge := 0 },
        refresh := some { value := "", maxAge := 0 } } ∧
    (Event.navigate "/login" ∈ (dispatch env st cfg).2.1 ↔
      env.isBrowser = true ∧ jsIncludes env.pathname "/login" = false) ∧
    (dispatch env st cfg).2.2 =
      Except.error
        { status := s2, config := refreshRequestConfig, tag := t2 } := by
  rw [dispatch]
  simp only [hb]
  rw [dif_pos (⟨trivial, hr⟩ : True ∧ cfg.retryFlag = false)]
  simp only [hfail]
  split <;> rename_i hcond <;> simp_all

/-- Claim C3 witness: the refresh-failure cycle at concrete inputs. -/
theorem claim_C3_witness :
    (dispatch envRefreshFail baseCookies saleRequest).1 =
      { access := some { value := "", maxAge := 0 },
        refresh := some { value := "", maxAge := 0 } } ∧
    (Event.navigate "/login" ∈
        (dispatch envRefreshFail baseCookies saleRequest).2.1 ↔
      envRefreshFail.isBrowser = true ∧
        jsIncludes envRefreshFail.pathname "/login" = false) ∧
    (dispatch envRefreshFail baseCookies saleRequest).2.2 =
      Except.error
        { status := some 401, config := refreshRequestConfig,
          tag := "stale-refresh" } :=
  claim_C3 envRefreshFail baseCookies saleRequest "expired" (some 401)
    "stale-refresh" rfl rfl rfl

/-- Claim C10: for every environment — including one where the refresh
endpoint itself answers 401 — a single originating dispatch makes at most
one refresh call and at most one retry, because the refresh goes through
the bare client (its outcome is consumed directly, never re-entering the
response interceptor) and the retry marker is set before refreshing; the
interceptor terminates on every input, witnessed by `dispatch` being a
total function. -/
theorem claim_C10 (env : Env) (st : CookieStore) (cfg : RequestConfig) :
    countRefresh (dispatch env st cfg).2.1 ≤ 1 ∧
    countRetry (dispatch env st cfg).2.1 ≤ 1 := by
  cases hflag : cfg.retryFlag with
  | true =>
    rw [dispatch_retry_marked env st cfg hflag]
    simp [countRefresh, countRetry]
  | false =>
    rw [dispatch]
    cases henv : env.backend (requestInterceptor st cfg) with
    | ok body => simp [countRefresh, countRetry]
    | fail status tag =>
      simp only [hflag]
      split
      · cases href : env.refreshEndpoint (getCookieValue st.refresh) with
        | ok newTok =>
          simp only [href]
          rw [dispatch_retry_marked]
          · simp [countRefresh, countRetry]
          · rfl
        | fail s2 t2 =>
          simp only [href]
          split <;> simp [countRefresh, countRetry]
      · simp [countRefresh, countRetry]

/-- Claim C6 counterexample: a failure that is not an HTTP-library error
(the `otherErr` branch of `fetchSession`) sets the generic error string but
does not clear a present in-memory user, so the claim that every failed
resolution clears the user is false at this input. -/
theorem claim_C6_counterexample :
    (fetchSession FetchOutcome.otherErr stateWithUser).error =
      some "An unexpected error occurred" ∧
    (fetchSession FetchOutcome.otherErr stateWithUser).user =
      some sampleUser ∧
    (fetchSession FetchOutcome.otherErr stateWithUser).user ≠ none :=
  ⟨rfl, rfl, by decide⟩

/-- Claim C6 (amended): every failed session resolution captures a
human-readable error string and forces no navigation by itself; an
HTTP-library failure additionally clears the in-memory user, while any
other failure type leaves the user unchanged. -/
theorem claim_C6_amended :
    (∀ (msg : Option String) (s : AuthState),
      (fetchSession (FetchOutcome.axiosErr msg) s).error =
        some (msg.getD "Failed to fetch session") ∧
      (fetchSession (FetchOutcome.axiosErr msg) s).user = none ∧
      (fetchSession (FetchOutcome.axiosErr msg) s).nav = s.nav) ∧
    (∀ s : AuthState,
      (fetchSession FetchOutcome.otherErr s).error =
        some "An unexpected error occurred" ∧
      (fetchSession FetchOutcome.otherErr s).user = s.user ∧
      (fetchSession FetchOutcome.otherErr s).nav = s.nav) := by
  constructor <;> intros <;> simp [fetchSession]

/-- Claim C8 counterexample: a success response whose shape is not the
success sentinel with a user (here status `FAILURE`) leaves a previously
present in-memory user in place, so the claim that the user is absent after
such a resolution is false at this input; the error is indeed null. -/
theorem claim_C8_counterexample :
    ¬ (failShapeResp.status = "SUCCESS" ∧ failShapeResp.data.user ≠ none) ∧
    (fetchSession (FetchOutcome.ok failShapeResp) stateWithUser).error =
      none ∧
    (fetchSession (FetchOutcome.ok failShapeResp) stateWithUser).user =
      some sampleUser ∧
    (fetchSession (FetchOutcome.ok failShapeResp) stateWithUser).user ≠
      none :=
  ⟨by decide, rfl, rfl, by decide⟩

/-- Claim C8 (amended): on a success response whose shape is not (status
equal to the success sentinel and a user present), the resolver leaves the
in-memory user unchanged — in particular it stays absent when it was
absent — sets the error string to null and writes no cookie. -/
theorem claim_C8_amended (resp : SessionResponse) (s : AuthState)
    (h : ¬ (resp.status = "SUCCESS" ∧ resp.data.user ≠ none)) :
    (fetchSession (FetchOutcome.ok resp) s).user = s.user ∧
    (fetchSession (FetchOutcome.ok resp) s).error = none ∧
    (fetchSession (FetchOutcome.ok resp) s).cookies = s.cookies := by
  simp only [fetchSession, if_neg h]
  exact ⟨trivial, trivial, trivial⟩

/-- Claim C8 witness: the amended statement at the concrete failure-shaped
response and a state with a present user. -/
theorem claim_C8_amended_witness :
    (fetchSession (FetchOutcome.ok failShapeResp) stateWithUser).user =
      stateWithUser.user ∧
    (fetchSession (FetchOutcome.ok failShapeResp) stateWithUser).error =
      none ∧
    (fetchSession (FetchOutcome.ok failShapeResp) stateWithUser).cookies =
      stateWithUser.cookies :=
  claim_C8_amended failShapeResp stateWithUser (by decide)

end Duka
